import Mathlib

/-!
Shallow embedding of the aggregation and derived-metrics core of the
personal-finance-tracker repository (files `features/transactions/transactions.py`,
`features/budgets/budgets.py`, `features/analytics/analytics.py`,
`features/smart_assistant/assistant.py`).

Money amounts are integers in minor units (paisa), exactly as stored by the
program.  Python float arithmetic enters the source in two ways.  Where an
integer is compared against `0.1` or `0.2` times an integer total, or a
ratio of integer totals is banded against fixed percentages, the IEEE-754
double computation provably takes the same branch as exact rational
arithmetic at every boundary the program can reach (the relative error,
below 2^-52 per operation, is too small to bridge the distance from an
integer to the nearest decision threshold on the program's value range), so
those comparisons are embedded as exact rationals.  Where the double
rounding is itself observable — the `0.7` budget threshold of
`generate_monthly_report` and the cent rounding of `to_paisa` — the
embedding models binary64 arithmetic explicitly: `roundDouble` is IEEE-754
correct rounding to 53 significant bits (round to nearest, ties to even),
exact on the whole normal range of doubles, and float constants appear as
the exact rational value of their double representation.  Every concrete
boundary input used below was additionally checked against CPython.
-/

/-- A ledger record, `Transaction` in `transactions.py` (a NamedTuple):
date string `YYYY-MM-DD`, type `"expense"` or `"income"`, category (or income
source), free-text description, and amount in integer paisa. -/
structure Transaction where
  date : String
  type : String
  category : String
  description : String
  amount : ℤ
deriving DecidableEq, Repr

/-- A budget record, `Budget` in `budgets.py`: category and monthly amount in
integer paisa. -/
structure Budget where
  category : String
  amount : ℤ
deriving DecidableEq, Repr

/-- Round-half-to-even on an exact rational, the semantics of Python 3's
built-in `round` applied to a float holding this exact value. -/
def roundHalfEven (q : ℚ) : ℤ :=
  if q - ⌊q⌋ < 1 / 2 then ⌊q⌋
  else if 1 / 2 < q - ⌊q⌋ then ⌊q⌋ + 1
  else if ⌊q⌋ % 2 = 0 then ⌊q⌋ else ⌊q⌋ + 1

/-- IEEE-754 binary64 correct rounding of an exact rational: the nearest
real of the form n * 2^e with 2^52 <= |n| < 2^53, ties to the even
significand — the value CPython produces for an arithmetic operation whose
exact result is `q`.  Exact on the whole normal range of doubles; the
program's values never reach the subnormal or overflow ranges. -/
def roundDouble (q : ℚ) : ℚ :=
  if q = 0 then 0
  else if q < 0 then
    -((roundHalfEven (|q| / (2:ℚ) ^ (Int.log 2 |q| - 52)) : ℚ) * (2:ℚ) ^ (Int.log 2 |q| - 52))
  else
    (roundHalfEven (|q| / (2:ℚ) ^ (Int.log 2 |q| - 52)) : ℚ) * (2:ℚ) ^ (Int.log 2 |q| - 52)

/-- `to_paisa` in `transactions.py`: `int(round(amount * 100))` on a binary64
float `amount`.  The argument is the exact rational value of that float; the
float product `amount * 100` is correctly rounded to a double
(`roundDouble`), Python's one-argument `round` takes that double to the
nearest integer with ties going to the even neighbour, and `int` is the
identity on the result. -/
def to_paisa (amount : ℚ) : ℤ :=
  roundHalfEven (roundDouble (amount * 100))

/-- `from_paisa` in `transactions.py`: `paisa_amount / 100.0`. -/
def from_paisa (paisa_amount : ℤ) : ℚ :=
  (paisa_amount : ℚ) / 100

/-- `get_total_spending` in `analytics.py`: sum of amounts of the
transactions whose type is `"expense"`. -/
def get_total_spending (transactions : List Transaction) : ℤ :=
  ((transactions.filter (fun t => t.type = "expense")).map Transaction.amount).sum

/-- `get_total_income` in `analytics.py`: sum of amounts of the transactions
whose type is `"income"`. -/
def get_total_income (transactions : List Transaction) : ℤ :=
  ((transactions.filter (fun t => t.type = "income")).map Transaction.amount).sum

/-- One step of `defaultdict(int)` accumulation: add `a` to the entry of
category `c`, appending a fresh entry when the key is new. -/
def addToCategory : List (String × ℤ) → String → ℤ → List (String × ℤ)
  | [], c, a => [(c, a)]
  | (c', v) :: rest, c, a =>
      if c' = c then (c', v + a) :: rest else (c', v) :: addToCategory rest c a

/-- `get_monthly_spending_by_category` in `analytics.py`: a `defaultdict(int)`
filled by one left-to-right pass that adds the amount of every `"expense"`
transaction to its category's entry, modelled as an association list. -/
def get_monthly_spending_by_category (transactions : List Transaction) :
    List (String × ℤ) :=
  transactions.foldl
    (fun acc t => if t.type = "expense" then addToCategory acc t.category t.amount else acc)
    []

/-- Utilization of a budget, as computed identically in `view_budgets`
(`budgets.py`) and `get_spending_alerts` (`assistant.py`):
`(spent / budget.amount * 100) if budget.amount > 0 else 0`. -/
def utilization (amount spent : ℤ) : ℚ :=
  if 0 < amount then (spent : ℚ) / (amount : ℚ) * 100 else 0

/-- Status labels attached to a budget row. -/
inductive BudgetStatus where
  | OK
  | WARNING
  | OVER
deriving DecidableEq, Repr

/-- Budget status as classified in `view_budgets` (`budgets.py`):
`utilization >= 100` gives OVER, `utilization >= 70` gives WARNING,
anything else OK. -/
def viewBudgetStatus (amount spent : ℤ) : BudgetStatus :=
  if 100 ≤ utilization amount spent then .OVER
  else if 70 ≤ utilization amount spent then .WARNING
  else .OK

/-- The binary64 double nearest to the literal `0.7`:
3152519739159347 / 2^52, slightly below the exact 7 / 10. -/
def float07 : ℚ := 3152519739159347 / 4503599627370496

/-- Budget status as classified in `generate_monthly_report` (`analytics.py`):
`spent > budget.amount` gives OVER, `spent > budget.amount * 0.7` gives
WARNING, anything else OK.  The threshold `budget.amount * 0.7` is computed
in binary64: the integer amount is converted to a double and multiplied by
the double nearest 0.7 (`float07`), the product correctly rounded
(`roundDouble`); Python's comparison of the integer `spent` against that
double is exact. -/
def reportBudgetStatus (amount spent : ℤ) : BudgetStatus :=
  if amount < spent then .OVER
  else if roundDouble (roundDouble (amount : ℚ) * float07) < (spent : ℚ) then .WARNING
  else .OK

/-- Kinds of per-budget alert emitted by `get_spending_alerts`. -/
inductive BudgetAlertKind where
  | approaching
  | exceeded
deriving DecidableEq, Repr

/-- Per-budget alert rule in `get_spending_alerts` (`assistant.py`):
`80 <= utilization < 100` gives the approaching-limit alert,
`utilization >= 100` gives the exceeded alert, otherwise none. -/
def budgetAlert (amount spent : ℤ) : Option BudgetAlertKind :=
  if 80 ≤ utilization amount spent ∧ utilization amount spent < 100 then some .approaching
  else if 100 ≤ utilization amount spent then some .exceeded
  else none

/-- Large-transaction alert rule in `get_spending_alerts` (`assistant.py`):
when the current month's income is positive, every current-month `"expense"`
transaction whose amount exceeds `monthly_income * 0.20` is reported (the
float constant `0.20` times an integer income compares to an integer amount
exactly as the rational `20 / 100` does on the program's range).  The result
lists the qualifying transactions; the source turns each into a message
string. -/
def largeTransactionAlerts (currentMonthTransactions : List Transaction) :
    List Transaction :=
  let monthlyIncome := get_total_income currentMonthTransactions
  if 0 < monthlyIncome then
    currentMonthTransactions.filter
      (fun t => t.type = "expense" ∧ (monthlyIncome : ℚ) * (20 / 100) < (t.amount : ℚ))
  else []

/-- Parse a run of ASCII digits as a natural number, failing on an empty or
non-digit run: the field parsing that `datetime.strptime`'s `%Y`, `%m`, `%d`
directives perform. -/
def parseNatDigits (cs : List Char) : Option ℕ :=
  if cs ≠ [] ∧ cs.all Char.isDigit then
    some (cs.foldl (fun n c => 10 * n + (c.toNat - 48)) 0)
  else none

/-- Gregorian leap-year test, as used by `datetime`. -/
def isLeap (y : ℕ) : Bool :=
  (y % 4 = 0 ∧ y % 100 ≠ 0) ∨ y % 400 = 0

/-- Days in a month of a given year, as validated by `datetime`. -/
def daysInMonth (y m : ℕ) : ℕ :=
  if m = 2 then (if isLeap y then 29 else 28)
  else if m = 4 ∨ m = 6 ∨ m = 9 ∨ m = 11 then 30
  else 31

/-- Split a character list at every dash, like the dash literals of the
format string `"%Y-%m-%d"` delimit its three numeric fields. -/
def splitOnDash : List Char → List (List Char)
  | [] => [[]]
  | c :: rest =>
      if c = '-' then [] :: splitOnDash rest
      else
        match splitOnDash rest with
        | [] => [[c]]
        | g :: gs => (c :: g) :: gs

/-- The `%d` day field of CPython's `strptime`, whose regex alternatives are
two digits `30`/`31`, `[12]` then a digit, `0` then a nonzero digit, one
nonzero digit, or one space followed by one nonzero digit: equivalently,
one or two digits with value 1 to 31, or a space-padded single digit
1 to 9. -/
def parseDayField (cs : List Char) : Option ℕ :=
  match cs with
  | [' ', c] => if c.isDigit ∧ c ≠ '0' then some (c.toNat - 48) else none
  | _ =>
      match parseNatDigits cs with
      | some d => if cs.length ≤ 2 ∧ 1 ≤ d ∧ d ≤ 31 then some d else none
      | none => none

/-- `datetime.strptime(s, "%Y-%m-%d")` reduced to the data the core reads
from it: the (year, month, day) triple when `s` is a well-formed calendar
date, and `none` when `strptime` raises `ValueError`.  CPython's `%Y`
matches exactly four digits (and `datetime` then rejects year 0), `%m` one
or two digits valued 1 to 12, `%d` per `parseDayField`, and constructing
the `datetime` validates the day against the month's length; the whole
string must be consumed.  The model's alphabet is ASCII: the non-ASCII
Unicode decimal digits that the regex class `\d` would also match never
occur in this program's ledgers, and the theorems below assert the
error-raising direction only for ASCII date strings. -/
def parseDate (s : String) : Option (ℕ × ℕ × ℕ) :=
  match splitOnDash s.data with
  | [ys, ms, ds] =>
      match parseNatDigits ys, parseNatDigits ms, parseDayField ds with
      | some y, some m, some d =>
          if ys.length = 4 ∧ ms.length ≤ 2 ∧
             1 ≤ y ∧ 1 ≤ m ∧ m ≤ 12 ∧ 1 ≤ d ∧ d ≤ daysInMonth y m
          then some (y, m, d) else none
      | _, _, _ => none
  | _ => none

/-- `filter_transactions_by_month` in `analytics.py`: the list comprehension
keeps the transactions whose parsed date has the requested year and month,
evaluating `strptime` on every element left to right, so the first
unparseable date raises `ValueError` (modelled as `Except.error` carrying the
offending date string) before any result is produced. -/
def filter_transactions_by_month (transactions : List Transaction)
    (year month : ℕ) : Except String (List Transaction) :=
  match transactions with
  | [] => .ok []
  | t :: rest =>
      match parseDate t.date with
      | none => .error t.date
      | some (y, m, _) =>
          match filter_transactions_by_month rest year month with
          | .error e => .error e
          | .ok r => .ok (if y = year ∧ m = month then t :: r else r)

/-- Outcome of the income-stability check of `income_analysis`
(`analytics.py`) over the last-3-months totals. -/
inductive StabilityResult where
  | stable
  | fluctuating
  | insufficientData
  | noData
deriving DecidableEq, Repr

/-- The stability check of `income_analysis` (`analytics.py`): with exactly
three totals, stable when `abs(t[i] - t[0]) <= t[0] * 0.1` for `i = 1, 2`
(the float constant `0.1` times an integer total compares to an integer
exactly as the rational `1 / 10` does on the program's range); a non-empty
list of another length reports insufficient data, and an empty list reports
no data. -/
def incomeStability : List ℤ → StabilityResult
  | [t0, t1, t2] =>
      if ((|t1 - t0| : ℤ) : ℚ) ≤ (t0 : ℚ) * (1 / 10) ∧ ((|t2 - t0| : ℤ) : ℚ) ≤ (t0 : ℚ) * (1 / 10)
      then .stable else .fluctuating
  | [] => .noData
  | _ => .insufficientData

/-- Outcome of the month-over-month comparison in `spending_analysis`
(`analytics.py`). -/
inductive SpendingComparison where
  | increased (pct : ℚ)
  | decreased (pct : ℚ)
  | unchanged
  | newActivity
  | noActivity
deriving DecidableEq, Repr

/-- The month-over-month comparison in `spending_analysis` (`analytics.py`):
only when the previous total is positive is
`(current - previous) / previous * 100` computed, reported as an increase,
a decrease (with its absolute value, as printed), or no change; a zero
previous total branches to the new-activity / no-activity messages without
dividing. -/
def compareSpending (current previous : ℤ) : SpendingComparison :=
  if 0 < previous then
    let change : ℚ := ((current : ℚ) - (previous : ℚ)) / (previous : ℚ) * 100
    if 0 < change then .increased change
    else if change < 0 then .decreased |change|
    else .unchanged
  else if 0 < current then .newActivity
  else .noActivity

/-- The signed percent change a `SpendingComparison` reports, when it
reports one (a decrease is printed as its absolute value, so it reads back
negated). -/
def reportedChange : SpendingComparison → Option ℚ
  | .increased pct => some pct
  | .decreased pct => some (-pct)
  | .unchanged => some 0
  | .newActivity => none
  | .noActivity => none

/-- True when the first string starts with the second,
`str.startswith` in Python, used to select current-month transactions by
the `"YYYY-MM"` date prefix in several places of the source. -/
def strStartsWith (s p : String) : Bool :=
  p.data.isPrefixOf s.data

/-- Current-month spend attributed to one budget category by the
`category_spending` dictionaries of `financial_health_score`,
`generate_monthly_report` (`analytics.py`), `view_budgets` (`budgets.py`)
and `get_spending_alerts` (`assistant.py`): the sum of amounts of the
`"expense"` transactions of that category whose date starts with the
current `"YYYY-MM"` string. -/
def spentInCategory (allTransactions : List Transaction) (monthStr cat : String) : ℤ :=
  ((allTransactions.filter
      (fun t => strStartsWith t.date monthStr ∧ t.type = "expense" ∧ t.category = cat)).map
    Transaction.amount).sum

/-- Savings-rate component of `financial_health_score` (`analytics.py`),
capped at 30: with positive income the rate `(income - expense) / income *
100` is banded at 20 / 10 / 0; with no income the component is reported N/A
and contributes 0 to the total. -/
def savingsRateScore (income spending : ℤ) : ℤ :=
  if 0 < income then
    let rate : ℚ := ((income : ℚ) - (spending : ℚ)) / (income : ℚ) * 100
    if 20 ≤ rate then 30
    else if 10 ≤ rate then 20
    else if 0 < rate then 10
    else 0
  else 0

/-- Number of budgets whose current-month category spend strictly exceeds
the budget amount, the `over_budget_count` loop of
`financial_health_score`. -/
def overBudgetCount (budgets : List Budget) (allTransactions : List Transaction)
    (monthStr : String) : ℕ :=
  (budgets.filter (fun b => b.amount < spentInCategory allTransactions monthStr b.category)).length

/-- Budget-adherence component of `financial_health_score` (`analytics.py`),
capped at 25: 0 with no budgets; otherwise 25 when no budget is exceeded, 15
when `over_budget_count <= len(all_budgets) / 2` (Python true division,
modelled exactly in ℚ), else 5. -/
def budgetAdherenceScore (budgets : List Budget) (allTransactions : List Transaction)
    (monthStr : String) : ℤ :=
  if budgets = [] then 0
  else
    let overCount := overBudgetCount budgets allTransactions monthStr
    if overCount = 0 then 25
    else if (overCount : ℚ) ≤ (budgets.length : ℚ) / 2 then 15
    else 5

/-- Income-versus-expenses component of `financial_health_score`
(`analytics.py`), capped at 25: scored only with positive income, 25 when
income exceeds spending, 15 when equal, 5 otherwise. -/
def incomeVsExpenseScore (income spending : ℤ) : ℤ :=
  if 0 < income then
    if spending < income then 25
    else if income = spending then 15
    else 5
  else 0

/-- Debt-management component of `financial_health_score` (`analytics.py`):
a fixed placeholder of 10 out of a nominal 20. -/
def debtScore : ℤ := 10

/-- Total of `financial_health_score` (`analytics.py`): the sum of the four
components, with income and spending taken over the current-month
transactions and adherence judged from all transactions restricted to the
current `"YYYY-MM"` prefix. -/
def healthScore (currentMonthTransactions allTransactions : List Transaction)
    (budgets : List Budget) (monthStr : String) : ℤ :=
  savingsRateScore (get_total_income currentMonthTransactions)
      (get_total_spending currentMonthTransactions)
    + budgetAdherenceScore budgets allTransactions monthStr
    + incomeVsExpenseScore (get_total_income currentMonthTransactions)
      (get_total_spending currentMonthTransactions)
    + debtScore

/-- Interpretation band printed for a total score by
`financial_health_score` (`analytics.py`). -/
def interpretScore (score : ℤ) : String :=
  if 80 ≤ score then "excellent"
  else if 60 ≤ score then "good"
  else if 40 ≤ score then "fair"
  else "needs attention"

/-! ## Helper lemmas -/

/-- `roundHalfEven` lands within half a unit of its argument. -/
lemma roundHalfEven_dist_le (q : ℚ) : |(roundHalfEven q : ℚ) - q| ≤ 1 / 2 := by
  have h0 : (⌊q⌋ : ℚ) ≤ q := Int.floor_le q
  have h1 : q < ⌊q⌋ + 1 := Int.lt_floor_add_one q
  unfold roundHalfEven
  split_ifs with ha hb hc
  · rw [abs_of_nonpos (by linarith)]
    linarith
  · rw [abs_of_nonneg (by push_cast; linarith)]
    push_cast
    linarith
  · rw [abs_of_nonpos (by linarith)]
    linarith
  · rw [abs_of_nonneg (by push_cast; linarith)]
    push_cast
    linarith

/-- When `roundHalfEven` is exactly half a unit away from its argument, it
chose the even neighbour. -/
lemma roundHalfEven_tie_even (q : ℚ) (h : |(roundHalfEven q : ℚ) - q| = 1 / 2) :
    roundHalfEven q % 2 = 0 := by
  have h0 : (⌊q⌋ : ℚ) ≤ q := Int.floor_le q
  have h1 : q < ⌊q⌋ + 1 := Int.lt_floor_add_one q
  unfold roundHalfEven at h ⊢
  split_ifs at h ⊢ with ha hb hc
  · rw [abs_of_nonpos (by linarith)] at h
    linarith
  · rw [abs_of_nonneg (by push_cast; linarith)] at h
    push_cast at h
    linarith
  · exact hc
  · have h2 : ⌊q⌋ % 2 = 1 := Int.emod_two_eq_zero_or_one ⌊q⌋ |>.resolve_left hc
    omega

/-- `roundDouble` at a positive rational lying in the binade
[2^(e+52), 2^(e+53)) is the correctly rounded significand times 2^e. -/
lemma roundDouble_pos_eq (q : ℚ) (e n : ℤ) (hq : 0 < q)
    (h1 : (2:ℚ) ^ (e + 52) ≤ q) (h2 : q < (2:ℚ) ^ (e + 53))
    (hn : roundHalfEven (q / (2:ℚ) ^ e) = n) :
    roundDouble q = (n : ℚ) * (2:ℚ) ^ e := by
  have h1' : ((2:ℕ) : ℚ) ^ (e + 52) ≤ q := by push_cast; exact h1
  have h2' : q < ((2:ℕ) : ℚ) ^ (e + 53) := by push_cast; exact h2
  have hlog : Int.log 2 q = e + 52 := by
    have ha : e + 52 ≤ Int.log 2 q := (Int.zpow_le_iff_le_log one_lt_two hq).mp h1'
    have hb : Int.log 2 q < e + 53 := (Int.lt_zpow_iff_log_lt one_lt_two hq).mp h2'
    omega
  rw [roundDouble, if_neg (ne_of_gt hq), if_neg (not_lt.mpr hq.le), abs_of_pos hq, hlog]
  have he : e + 52 - 52 = e := by ring
  rw [he, hn]

/-- Binary64 rounding commutes with negation (the format is symmetric). -/
lemma roundDouble_neg_eq (q : ℚ) : roundDouble (-q) = -roundDouble q := by
  rcases lt_trichotomy q 0 with hq | hq | hq
  · have h1 : 0 < -q := neg_pos.mpr hq
    rw [roundDouble, if_neg (ne_of_gt h1), if_neg (not_lt.mpr h1.le), abs_neg]
    rw [roundDouble, if_neg (ne_of_lt hq), if_pos hq, neg_neg]
  · simp [hq, roundDouble]
  · have h1 : -q < 0 := by linarith
    rw [roundDouble, if_neg (ne_of_lt h1), if_pos h1, abs_neg]
    rw [roundDouble, if_neg (ne_of_gt hq), if_neg (not_lt.mpr hq.le)]

/-- Correct binary64 rounding moves a value by at most half an ulp, which is
at most a 2^-53 relative error. -/
lemma roundDouble_dist (q : ℚ) : |roundDouble q - q| ≤ |q| / 2 ^ 53 := by
  rcases eq_or_ne q 0 with rfl | h0
  · simp [roundDouble]
  · have hs : 0 < |q| := abs_pos.mpr h0
    have hpow : (0:ℚ) < (2:ℚ) ^ (Int.log 2 |q| - 52) := zpow_pos (by norm_num) _
    have h2e : ((2:ℚ) ^ (Int.log 2 |q| - 52)) ≠ 0 := ne_of_gt hpow
    have hcore :
        abs ((roundHalfEven (|q| / (2:ℚ) ^ (Int.log 2 |q| - 52)) : ℚ) *
            (2:ℚ) ^ (Int.log 2 |q| - 52) - |q|) ≤ (2:ℚ) ^ (Int.log 2 |q| - 52) / 2 := by
      have h := roundHalfEven_dist_le (|q| / (2:ℚ) ^ (Int.log 2 |q| - 52))
      have hrw :
          (roundHalfEven (|q| / (2:ℚ) ^ (Int.log 2 |q| - 52)) : ℚ) *
              (2:ℚ) ^ (Int.log 2 |q| - 52) - |q|
            = ((roundHalfEven (|q| / (2:ℚ) ^ (Int.log 2 |q| - 52)) : ℚ) -
                |q| / (2:ℚ) ^ (Int.log 2 |q| - 52)) * (2:ℚ) ^ (Int.log 2 |q| - 52) := by
        rw [sub_mul, div_mul_cancel₀ _ h2e]
      rw [hrw, abs_mul, abs_of_pos hpow]
      calc abs ((roundHalfEven (|q| / (2:ℚ) ^ (Int.log 2 |q| - 52)) : ℚ) -
              |q| / (2:ℚ) ^ (Int.log 2 |q| - 52)) * (2:ℚ) ^ (Int.log 2 |q| - 52)
          ≤ (1 / 2) * (2:ℚ) ^ (Int.log 2 |q| - 52) := by
            exact mul_le_mul_of_nonneg_right h hpow.le
        _ = (2:ℚ) ^ (Int.log 2 |q| - 52) / 2 := by ring
    have hbound : (2:ℚ) ^ (Int.log 2 |q| - 52) / 2 ≤ |q| / 2 ^ 53 := by
      have hlow : ((2:ℕ):ℚ) ^ (Int.log 2 |q|) ≤ |q| := Int.zpow_log_le_self one_lt_two hs
      have hlow' : (2:ℚ) ^ (Int.log 2 |q|) ≤ |q| := by push_cast at hlow; exact hlow
      have hsplit : (2:ℚ) ^ (Int.log 2 |q| - 52) / 2 = (2:ℚ) ^ (Int.log 2 |q|) / 2 ^ 53 := by
        rw [zpow_sub₀ (by norm_num : (2:ℚ) ≠ 0), div_div]
        norm_num
      rw [hsplit]
      gcongr
    have hkey : |roundDouble q - q| =
        abs ((roundHalfEven (|q| / (2:ℚ) ^ (Int.log 2 |q| - 52)) : ℚ) *
          (2:ℚ) ^ (Int.log 2 |q| - 52) - |q|) := by
      rcases lt_or_gt_of_ne h0 with hq | hq
      · rw [roundDouble, if_neg h0, if_pos hq]
        have hflip : -((roundHalfEven (|q| / (2:ℚ) ^ (Int.log 2 |q| - 52)) : ℚ) *
            (2:ℚ) ^ (Int.log 2 |q| - 52)) - q
          = -((roundHalfEven (|q| / (2:ℚ) ^ (Int.log 2 |q| - 52)) : ℚ) *
            (2:ℚ) ^ (Int.log 2 |q| - 52) - |q|) := by
          rw [abs_of_neg hq]
          ring
        rw [hflip, abs_neg]
      · rw [roundDouble, if_neg h0, if_neg (not_lt.mpr hq.le)]
        rw [abs_of_pos hq]
    rw [hkey]
    exact hcore.trans hbound

/-- The double of the integer 10000 is 10000 itself. -/
lemma rd_cast_10000 : roundDouble (((10000:ℤ)):ℚ) = 10000 := by
  have h := roundDouble_pos_eq (((10000:ℤ)):ℚ) (-39) 5497558138880000 (by norm_num) (by norm_num)
    (by norm_num) (by norm_num [roundHalfEven])
  rw [h]
  norm_num

/-- The float threshold `10000 * 0.7` computes to exactly 7000.0: the exact
product 10000 * float07 lies within half an ulp of 7000. -/
lemma rd_thresh_10000 : roundDouble (roundDouble (((10000:ℤ)):ℚ) * float07) = 7000 := by
  rw [rd_cast_10000]
  have h := roundDouble_pos_eq ((10000:ℚ) * float07) (-40) 7696581394432000
    (by norm_num [float07]) (by norm_num [float07]) (by norm_num [float07])
    (by norm_num [float07, roundHalfEven])
  rw [h]
  norm_num

/-- The double of the integer 2570 is 2570 itself. -/
lemma rd_cast_2570 : roundDouble (((2570:ℤ)):ℚ) = 2570 := by
  have h := roundDouble_pos_eq (((2570:ℤ)):ℚ) (-41) 5651489766768640 (by norm_num) (by norm_num)
    (by norm_num) (by norm_num [roundHalfEven])
  rw [h]
  norm_num

/-- The float threshold `2570 * 0.7` computes to 1798.9999999999998, one ulp
below 1799 = exact 70% of 2570. -/
lemma rd_thresh_2570 :
    roundDouble (roundDouble (((2570:ℤ)):ℚ) * float07) = 7912085673476095 / 4398046511104 := by
  rw [rd_cast_2570]
  have h := roundDouble_pos_eq ((2570:ℚ) * float07) (-42) 7912085673476095
    (by norm_num [float07]) (by norm_num [float07]) (by norm_num [float07])
    (by norm_num [float07, roundHalfEven])
  rw [h]
  norm_num

/-- Rewriting `reportBudgetStatus` by the value of its float threshold. -/
lemma reportBudgetStatus_eval (amount spent : ℤ) (T : ℚ)
    (hT : roundDouble (roundDouble (amount : ℚ) * float07) = T) :
    reportBudgetStatus amount spent =
      if amount < spent then .OVER else if T < (spent : ℚ) then .WARNING else .OK := by
  rw [reportBudgetStatus]
  simp only [hT]

/-- `generate_monthly_report` classifies spend equal to the budget amount as
WARNING (10000 is not > 10000, but 10000 is > 7000.0). -/
lemma reportBudgetStatus_full_spend : reportBudgetStatus 10000 10000 = .WARNING := by
  rw [reportBudgetStatus_eval 10000 10000 7000 rd_thresh_10000, if_neg (by norm_num),
    if_pos (by norm_num)]

/-- `generate_monthly_report` classifies spend at exactly 70% of a 10000
budget as OK (7000 is not > 7000.0). -/
lemma reportBudgetStatus_seventy_pct_10000 : reportBudgetStatus 10000 7000 = .OK := by
  rw [reportBudgetStatus_eval 10000 7000 7000 rd_thresh_10000, if_neg (by norm_num),
    if_neg (by norm_num)]

/-- `generate_monthly_report` classifies spend at exactly 70% of a 2570
budget as WARNING: 1799 is > 1798.9999999999998. -/
lemma reportBudgetStatus_seventy_pct_2570 : reportBudgetStatus 2570 1799 = .WARNING := by
  rw [reportBudgetStatus_eval 2570 1799 (7912085673476095 / 4398046511104) rd_thresh_2570,
    if_neg (by norm_num), if_pos (by norm_num)]

/-- `generate_monthly_report` classifies spend one paisa below 70% of a 2570
budget as OK. -/
lemma reportBudgetStatus_below_seventy_2570 : reportBudgetStatus 2570 1798 = .OK := by
  rw [reportBudgetStatus_eval 2570 1798 (7912085673476095 / 4398046511104) rd_thresh_2570,
    if_neg (by norm_num), if_neg (by norm_num)]

/-- With a positive budget amount, a lower bound on the utilization
percentage is the corresponding integer inequality on spend. -/
lemma le_utilization_iff (amount spent : ℤ) (hpos : 0 < amount) (c : ℚ) :
    c ≤ utilization amount spent ↔ c * amount ≤ 100 * spent := by
  have ha : (0 : ℚ) < (amount : ℚ) := by exact_mod_cast hpos
  rw [utilization, if_pos hpos, div_mul_eq_mul_div, le_div_iff₀ ha]
  constructor <;> intro h <;> linarith

/-- Budget status in `view_budgets` is OVER exactly when spend reaches the
amount. -/
lemma viewBudgetStatus_over_iff (amount spent : ℤ) (hpos : 0 < amount) :
    viewBudgetStatus amount spent = .OVER ↔ amount ≤ spent := by
  have key : (100 : ℚ) ≤ utilization amount spent ↔ amount ≤ spent := by
    rw [le_utilization_iff amount spent hpos]
    constructor <;> intro h
    · have h2 : (amount : ℚ) ≤ (spent : ℚ) := by linarith
      exact_mod_cast h2
    · have h2 : (amount : ℚ) ≤ (spent : ℚ) := by exact_mod_cast h
      linarith
  rw [viewBudgetStatus]
  split_ifs with h1 h2
  · simp [key.mp h1]
  · simp only [iff_false_intro (by decide : BudgetStatus.WARNING ≠ .OVER), false_iff]
    exact fun hc => h1 (key.mpr hc)
  · simp only [iff_false_intro (by decide : BudgetStatus.OK ≠ .OVER), false_iff]
    exact fun hc => h1 (key.mpr hc)

/-- Budget status in `view_budgets` is WARNING exactly on the band
`70 <= utilization < 100`. -/
lemma viewBudgetStatus_warning_iff (amount spent : ℤ) (hpos : 0 < amount) :
    viewBudgetStatus amount spent = .WARNING ↔ 7 * amount ≤ 10 * spent ∧ spent < amount := by
  have key100 : (100 : ℚ) ≤ utilization amount spent ↔ amount ≤ spent := by
    rw [le_utilization_iff amount spent hpos]
    constructor <;> intro h
    · have h2 : (amount : ℚ) ≤ (spent : ℚ) := by linarith
      exact_mod_cast h2
    · have h2 : (amount : ℚ) ≤ (spent : ℚ) := by exact_mod_cast h
      linarith
  have key70 : (70 : ℚ) ≤ utilization amount spent ↔ 7 * amount ≤ 10 * spent := by
    rw [le_utilization_iff amount spent hpos]
    constructor <;> intro h
    · have h10 : (7 : ℚ) * amount ≤ 10 * spent := by linarith
      exact_mod_cast h10
    · have h10 : (7 : ℚ) * (amount : ℚ) ≤ 10 * (spent : ℚ) := by exact_mod_cast h
      linarith
  rw [viewBudgetStatus]
  split_ifs with h1 h2
  · simp only [iff_false_intro (by decide : BudgetStatus.OVER ≠ .WARNING), false_iff]
    intro hc
    exact absurd (key100.mp h1) (not_le.mpr hc.2)
  · simp only [true_iff, eq_self_iff_true]
    exact ⟨key70.mp h2, not_le.mp (fun hc => h1 (key100.mpr hc))⟩
  · simp only [iff_false_intro (by decide : BudgetStatus.OK ≠ .WARNING), false_iff]
    exact fun hc => h2 (key70.mpr hc.1)

/-- Budget status in `generate_monthly_report` is OVER exactly when spend
strictly exceeds the amount. -/
lemma reportBudgetStatus_over_iff (amount spent : ℤ) :
    reportBudgetStatus amount spent = .OVER ↔ amount < spent := by
  rw [reportBudgetStatus]
  split_ifs with h1 h2
  · simpa using h1
  · simp only [iff_false_intro (by decide : BudgetStatus.WARNING ≠ .OVER), false_iff]
    exact h1
  · simp only [iff_false_intro (by decide : BudgetStatus.OK ≠ .OVER), false_iff]
    exact h1

/-- The binary64 double nearest to the decimal 0.005 is
5764607523034235 * 2^-60, slightly above 1/200. -/
lemma rd_half_cent : roundDouble (1/200 : ℚ) = (5764607523034235 : ℚ) * (2:ℚ) ^ (-60 : ℤ) := by
  refine roundDouble_pos_eq (1/200) (-60) 5764607523034235 (by norm_num) (by norm_num)
    (by norm_num) ?_
  norm_num [roundHalfEven]

/-- The float product `0.005 * 100` is exactly the double 0.5: the exact
product of the double nearest 0.005 with 100 rounds back onto one half. -/
lemma rd_half_cent_prod : roundDouble (roundDouble (1/200 : ℚ) * 100) = 1/2 := by
  rw [rd_half_cent]
  have h := roundDouble_pos_eq ((5764607523034235 : ℚ) * (2:ℚ) ^ (-60 : ℤ) * 100) (-53)
    4503599627370496 (by norm_num) (by norm_num) (by norm_num) (by norm_num [roundHalfEven])
  rw [h]
  norm_num

/-- `int(round(0.005 * 100))` is 0: the tie 0.5 goes to the even integer. -/
lemma tp_half_cent : to_paisa (roundDouble (1/200 : ℚ)) = 0 := by
  rw [to_paisa, rd_half_cent_prod]
  norm_num [roundHalfEven]

/-- `int(round(-0.005 * 100))` is 0: the tie -0.5 goes to the even integer. -/
lemma tp_neg_half_cent : to_paisa (roundDouble (-(1/200) : ℚ)) = 0 := by
  rw [to_paisa, roundDouble_neg_eq]
  have hm : -roundDouble (1/200 : ℚ) * 100 = -(roundDouble (1/200 : ℚ) * 100) := by ring
  rw [hm, roundDouble_neg_eq, rd_half_cent_prod]
  norm_num [roundHalfEven]

/-- The binary64 double nearest to the decimal 16.045 is
4516266001322476 * 2^-48, slightly above 3209/200. -/
lemma rd_16045 : roundDouble (3209/200 : ℚ) = (4516266001322476 : ℚ) * (2:ℚ) ^ (-48 : ℤ) := by
  refine roundDouble_pos_eq (3209/200) (-48) 4516266001322476 (by norm_num) (by norm_num)
    (by norm_num) ?_
  norm_num [roundHalfEven]

/-- The float product `16.045 * 100` is the double 1604.5000000000002,
strictly above the integer tie 1604.5. -/
lemma rd_16045_prod :
    roundDouble (roundDouble (3209/200 : ℚ) * 100) = (7056665627066369 : ℚ) * (2:ℚ) ^ (-42 : ℤ) := by
  rw [rd_16045]
  exact roundDouble_pos_eq ((4516266001322476 : ℚ) * (2:ℚ) ^ (-48 : ℤ) * 100) (-42)
    7056665627066369 (by norm_num) (by norm_num) (by norm_num) (by norm_num [roundHalfEven])

/-- `int(round(16.045 * 100))` is 1605, a half-cent amount rounding to the
odd cent because the float product sits above the tie. -/
lemma tp_16045 : to_paisa (roundDouble (3209/200 : ℚ)) = 1605 := by
  rw [to_paisa, rd_16045_prod]
  norm_num [roundHalfEven]

/-! ## Claim theorems -/

/-- C1 (counterexample): the claim states that spend exactly equal to the
budget amount yields OVER in every place the program classifies budget
status, but `generate_monthly_report` classifies a budget of 10000 paisa
with 10000 paisa spent as WARNING, not OVER (10000 is not strictly greater
than 10000, while it is strictly greater than the float threshold
10000 * 0.7 = 7000.0). -/
theorem report_status_at_full_spend_not_over :
    reportBudgetStatus 10000 10000 ≠ BudgetStatus.OVER := by
  rw [reportBudgetStatus_full_spend]
  decide

/-- C1 (amended): for budgets with positive amount, `view_budgets`
classifies OVER exactly when utilization is at least 100% (so spend equal to
the amount is OVER there) and WARNING exactly when utilization is in
[70%, 100%) (so spend at exactly 70% is WARNING there); but
`generate_monthly_report` classifies OVER only when spend strictly exceeds
the amount — spend exactly equal to the budget amount yields WARNING there —
and its WARNING threshold is the binary64 product `amount * 0.7`, which
coincides with exact 70% for some amounts but not others: at amount 10000
the threshold is exactly 7000.0, so spend 7000 (exactly 70%) yields OK,
while at amount 2570 the threshold is 1798.9999999999998, so spend 1799
(exactly 70%) yields WARNING and spend 1798 yields OK. -/
theorem budget_status_boundary_semantics :
    (∀ amount spent : ℤ, 0 < amount →
      ((viewBudgetStatus amount spent = .OVER ↔ amount ≤ spent) ∧
       (viewBudgetStatus amount spent = .WARNING ↔ 7 * amount ≤ 10 * spent ∧ spent < amount) ∧
       (reportBudgetStatus amount spent = .OVER ↔ amount < spent))) ∧
    viewBudgetStatus 10000 10000 = .OVER ∧
    viewBudgetStatus 10000 7000 = .WARNING ∧
    viewBudgetStatus 10000 6999 = .OK ∧
    viewBudgetStatus 2570 1799 = .WARNING ∧
    reportBudgetStatus 10000 10000 = .WARNING ∧
    reportBudgetStatus 10000 7000 = .OK ∧
    reportBudgetStatus 2570 1799 = .WARNING ∧
    reportBudgetStatus 2570 1798 = .OK := by
  refine ⟨fun amount spent hpos => ⟨viewBudgetStatus_over_iff amount spent hpos,
    viewBudgetStatus_warning_iff amount spent hpos,
    reportBudgetStatus_over_iff amount spent⟩, ?_, ?_, ?_, ?_,
    reportBudgetStatus_full_spend, reportBudgetStatus_seventy_pct_10000,
    reportBudgetStatus_seventy_pct_2570, reportBudgetStatus_below_seventy_2570⟩
  · norm_num [viewBudgetStatus, utilization]
  · norm_num [viewBudgetStatus, utilization]
  · norm_num [viewBudgetStatus, utilization]
  · norm_num [viewBudgetStatus, utilization]

/-- C1 (witness): the amended boundary semantics instantiated at a budget
of 10000 paisa with 10000 paisa spent. -/
theorem budget_status_boundary_semantics_witness :
    viewBudgetStatus 10000 10000 = .OVER ↔ (10000 : ℤ) ≤ 10000 :=
  (budget_status_boundary_semantics.1 10000 10000 (by norm_num)).1

/-- C4 (counterexample): the claim states that `to_paisa` rounds ties away
from zero, with 0.005 display units rounding to 1 minor unit, but the
program computes `int(round(0.005 * 100))` = 0: the double nearest 0.005
(`roundDouble (1 / 200)`) times 100 is exactly the double 0.5, and Python's
`round` sends that tie to the even integer 0, not to 1. -/
theorem to_paisa_half_cent_not_one :
    to_paisa (roundDouble (1 / 200)) ≠ 1 := by
  rw [tp_half_cent]
  decide

/-- C4 (amended): `to_paisa` receives a binary64 float and computes Python's
`round` of the binary64 product `amount * 100`: the product is correctly
rounded to a double and then taken to the nearest integer with exact ties
going to the even integer, so the result is within 1/2 of the rounded
double product and within 1/2 + |x * 100| / 2^53 of the exact product.  At
the half-cent boundary the outcome follows the float product: the floats
nearest 0.005 and -0.005 both give 0 minor units (their products are exactly
0.5 and -0.5, ties, sent to the even 0), while the float nearest 16.045
gives 1605 (its product 1604.5000000000002 lies above the tie). -/
theorem to_paisa_rounds_float_product :
    (∀ x : ℚ, |(to_paisa x : ℚ) - x * 100| ≤ 1 / 2 + |x * 100| / 2 ^ 53) ∧
    (∀ x : ℚ, |(to_paisa x : ℚ) - roundDouble (x * 100)| ≤ 1 / 2) ∧
    (∀ x : ℚ, |(to_paisa x : ℚ) - roundDouble (x * 100)| = 1 / 2 → to_paisa x % 2 = 0) ∧
    to_paisa (roundDouble (1 / 200)) = 0 ∧
    to_paisa (roundDouble (-(1 / 200))) = 0 ∧
    to_paisa (roundDouble (3209 / 200)) = 1605 := by
  refine ⟨?_, fun x => roundHalfEven_dist_le (roundDouble (x * 100)),
    fun x h => roundHalfEven_tie_even (roundDouble (x * 100)) h,
    tp_half_cent, tp_neg_half_cent, tp_16045⟩
  intro x
  have h1 : |(to_paisa x : ℚ) - roundDouble (x * 100)| ≤ 1 / 2 :=
    roundHalfEven_dist_le (roundDouble (x * 100))
  have h2 : |roundDouble (x * 100) - x * 100| ≤ |x * 100| / 2 ^ 53 :=
    roundDouble_dist (x * 100)
  calc |(to_paisa x : ℚ) - x * 100|
      ≤ |(to_paisa x : ℚ) - roundDouble (x * 100)| + |roundDouble (x * 100) - x * 100| :=
        abs_sub_le _ _ _
    _ ≤ 1 / 2 + |x * 100| / 2 ^ 53 := add_le_add h1 h2

/-- C4 (witness): the tie-to-even clause instantiated at the float nearest
0.005 display units, whose float product with 100 is exactly one half and
lands on the even value 0. -/
theorem to_paisa_rounds_float_product_witness :
    to_paisa (roundDouble (1 / 200)) % 2 = 0 :=
  to_paisa_rounds_float_product.2.2.1 (roundDouble (1 / 200))
    (by rw [tp_half_cent, rd_half_cent_prod]; norm_num)

/-- The savings-rate component never leaves [0, 30]. -/
lemma savingsRateScore_bounds (income spending : ℤ) :
    0 ≤ savingsRateScore income spending ∧ savingsRateScore income spending ≤ 30 := by
  simp only [savingsRateScore]
  split_ifs <;> norm_num

/-- The budget-adherence component never leaves [0, 25]. -/
lemma budgetAdherenceScore_bounds (budgets : List Budget)
    (allTransactions : List Transaction) (ym : String) :
    0 ≤ budgetAdherenceScore budgets allTransactions ym ∧
      budgetAdherenceScore budgets allTransactions ym ≤ 25 := by
  simp only [budgetAdherenceScore]
  split_ifs <;> norm_num

/-- The income-versus-expenses component never leaves [0, 25]. -/
lemma incomeVsExpenseScore_bounds (income spending : ℤ) :
    0 ≤ incomeVsExpenseScore income spending ∧ incomeVsExpenseScore income spending ≤ 25 := by
  simp only [incomeVsExpenseScore]
  split_ifs <;> norm_num

/-- C2: with current-month income of 100000 minor units, spending of 70000,
and exactly one budget whose category spend does not exceed its amount, the
health scorer awards 30 savings-rate points (rate 30% >= 20%), 25
budget-adherence points (no over-budget category), 25 income-versus-expense
points, and the fixed 10 debt-placeholder points, totalling 90, which the
interpretation bands as excellent (>= 80). -/
theorem health_score_ninety_scenario :
    ∀ (cur atx : List Transaction) (b : Budget) (ym : String),
      get_total_income cur = 100000 →
      get_total_spending cur = 70000 →
      spentInCategory atx ym b.category ≤ b.amount →
      savingsRateScore (get_total_income cur) (get_total_spending cur) = 30 ∧
      budgetAdherenceScore [b] atx ym = 25 ∧
      incomeVsExpenseScore (get_total_income cur) (get_total_spending cur) = 25 ∧
      debtScore = 10 ∧
      healthScore cur atx [b] ym = 90 ∧
      interpretScore (healthScore cur atx [b] ym) = "excellent" := by
  intro cur atx b ym hi hs hb
  have h1 : savingsRateScore 100000 70000 = 30 := by norm_num [savingsRateScore]
  have hc : overBudgetCount [b] atx ym = 0 := by
    simp [overBudgetCount, List.filter_cons, not_lt.mpr hb]
  have h2 : budgetAdherenceScore [b] atx ym = 25 := by
    simp [budgetAdherenceScore, hc]
  have h3 : incomeVsExpenseScore 100000 70000 = 25 := by norm_num [incomeVsExpenseScore]
  have hh : healthScore cur atx [b] ym = 90 := by
    simp only [healthScore, hi, hs, h1, h2, h3, debtScore]
    norm_num
  refine ⟨by rw [hi, hs]; exact h1, h2, by rw [hi, hs]; exact h3, rfl, hh, ?_⟩
  rw [hh]
  norm_num [interpretScore]

/-- C2 (witness): the 90-point scenario realized by a concrete October 2025
ledger with one salary credit of 100000, one food expense of 70000, and a
food budget of 80000. -/
theorem health_score_ninety_scenario_witness :
    healthScore
        [⟨"2025-10-01", "income", "Salary", "pay", 100000⟩,
         ⟨"2025-10-02", "expense", "Food", "grocery", 70000⟩]
        [⟨"2025-10-01", "income", "Salary", "pay", 100000⟩,
         ⟨"2025-10-02", "expense", "Food", "grocery", 70000⟩]
        [⟨"Food", 80000⟩] "2025-10" = 90 ∧
      interpretScore
        (healthScore
          [⟨"2025-10-01", "income", "Salary", "pay", 100000⟩,
           ⟨"2025-10-02", "expense", "Food", "grocery", 70000⟩]
          [⟨"2025-10-01", "income", "Salary", "pay", 100000⟩,
           ⟨"2025-10-02", "expense", "Food", "grocery", 70000⟩]
          [⟨"Food", 80000⟩] "2025-10") = "excellent" := by
  have h := health_score_ninety_scenario
    [⟨"2025-10-01", "income", "Salary", "pay", 100000⟩,
     ⟨"2025-10-02", "expense", "Food", "grocery", 70000⟩]
    [⟨"2025-10-01", "income", "Salary", "pay", 100000⟩,
     ⟨"2025-10-02", "expense", "Food", "grocery", 70000⟩]
    ⟨"Food", 80000⟩ "2025-10" (by decide) (by decide) (by decide)
  exact ⟨h.2.2.2.2.1, h.2.2.2.2.2⟩

/-- C10: for every input the health score actually computed lies between 10
and 90 inclusive — the debt-management placeholder contributes exactly 10
unconditionally and the three variable components are capped at 30, 25 and
25 — so in particular the nominal maximum of 100 is never attained; this
holds a fortiori whenever the transaction ledger is non-empty, the only case
in which the source computes a score at all. -/
theorem health_score_bounds :
    ∀ (cur atx : List Transaction) (budgets : List Budget) (ym : String),
      debtScore = 10 ∧
      10 ≤ healthScore cur atx budgets ym ∧
      healthScore cur atx budgets ym ≤ 90 := by
  intro cur atx budgets ym
  obtain ⟨a1, a2⟩ := savingsRateScore_bounds (get_total_income cur) (get_total_spending cur)
  obtain ⟨b1, b2⟩ := budgetAdherenceScore_bounds budgets atx ym
  obtain ⟨c1, c2⟩ := incomeVsExpenseScore_bounds (get_total_income cur) (get_total_spending cur)
  refine ⟨rfl, ?_, ?_⟩ <;> simp only [healthScore, debtScore] <;> linarith

/-- The rational tolerance comparison of the stability check is the integer
inequality `10 * |d| <= t0`. -/
lemma stability_tolerance_iff (d t0 : ℤ) :
    ((|d| : ℤ) : ℚ) ≤ (t0 : ℚ) * (1 / 10) ↔ 10 * |d| ≤ t0 := by
  constructor <;> intro h
  · have h10 : (10 : ℚ) * (|d| : ℤ) ≤ (t0 : ℚ) := by linarith
    exact_mod_cast h10
  · have h10 : (10 : ℚ) * ((|d| : ℤ) : ℚ) ≤ (t0 : ℚ) := by exact_mod_cast h
    linarith

/-- C3: over three chronologically ordered period totals the stability
check of `income_analysis` reports STABLE exactly when both later totals
stay within one tenth of the first (`|ti - t0| <= 0.1 * t0`, stated as the
equivalent integer inequality `10 * |ti - t0| <= t0`) and FLUCTUATING
otherwise; with a zero first total this degenerates, without dividing, to
STABLE exactly when both later totals are zero; in particular
[1000, 1050, 950] is stable, [1000, 1200, 900] fluctuates, [0, 0, 0] is
stable and [0, 50, 0] fluctuates. -/
theorem income_stability_semantics :
    (∀ t0 t1 t2 : ℤ,
      (incomeStability [t0, t1, t2] = .stable ↔
        10 * |t1 - t0| ≤ t0 ∧ 10 * |t2 - t0| ≤ t0) ∧
      (incomeStability [t0, t1, t2] = .fluctuating ↔
        ¬(10 * |t1 - t0| ≤ t0 ∧ 10 * |t2 - t0| ≤ t0))) ∧
    (∀ t1 t2 : ℤ, incomeStability [0, t1, t2] = .stable ↔ t1 = 0 ∧ t2 = 0) ∧
    incomeStability [1000, 1050, 950] = .stable ∧
    incomeStability [1000, 1200, 900] = .fluctuating ∧
    incomeStability [0, 0, 0] = .stable ∧
    incomeStability [0, 50, 0] = .fluctuating := by
  have key : ∀ t0 t1 t2 : ℤ,
      (incomeStability [t0, t1, t2] = .stable ↔
        10 * |t1 - t0| ≤ t0 ∧ 10 * |t2 - t0| ≤ t0) ∧
      (incomeStability [t0, t1, t2] = .fluctuating ↔
        ¬(10 * |t1 - t0| ≤ t0 ∧ 10 * |t2 - t0| ≤ t0)) := by
    intro t0 t1 t2
    rw [incomeStability]
    simp only [stability_tolerance_iff]
    split_ifs with h
    · simp [h]
    · simp [h]
  refine ⟨key, ?_, ?_, ?_, ?_, ?_⟩
  · intro t1 t2
    rw [(key 0 t1 t2).1]
    constructor
    · rintro ⟨h1, h2⟩
      rw [sub_zero] at h1 h2
      exact ⟨abs_nonpos_iff.mp (by linarith), abs_nonpos_iff.mp (by linarith)⟩
    · rintro ⟨rfl, rfl⟩
      norm_num
  · rw [(key 1000 1050 950).1]
    norm_num
  · rw [(key 1000 1200 900).2]
    norm_num
  · rw [(key 0 0 0).1]
    norm_num
  · rw [(key 0 50 0).2]
    norm_num

/-- C5: a large-transaction alert is emitted for a current-month transaction
exactly when the month's income is positive, the transaction is an expense,
and its amount strictly exceeds 20% of the income (stated as the equivalent
integer inequality `monthly_income < 5 * amount`); an expense amounting to
exactly 20% of the income is not reported, while with income divisible by 5
an expense one minor unit above 20% is. -/
theorem large_transaction_alert_semantics :
    ∀ (txs : List Transaction) (t : Transaction),
      (t ∈ largeTransactionAlerts txs ↔
        0 < get_total_income txs ∧ t ∈ txs ∧ t.type = "expense" ∧
          get_total_income txs < 5 * t.amount) ∧
      (5 * t.amount = get_total_income txs → t ∉ largeTransactionAlerts txs) ∧
      (t ∈ txs → t.type = "expense" → 0 < get_total_income txs →
        5 * (t.amount - 1) = get_total_income txs → t ∈ largeTransactionAlerts txs) := by
  intro txs t
  have key : t ∈ largeTransactionAlerts txs ↔
      0 < get_total_income txs ∧ t ∈ txs ∧ t.type = "expense" ∧
        get_total_income txs < 5 * t.amount := by
    rw [largeTransactionAlerts]
    split_ifs with h
    · simp only [List.mem_filter, decide_eq_true_eq]
      constructor
      · rintro ⟨hmem, hty, hlt⟩
        refine ⟨h, hmem, hty, ?_⟩
        have h5 : (get_total_income txs : ℚ) < 5 * (t.amount : ℚ) := by linarith
        exact_mod_cast h5
      · rintro ⟨-, hmem, hty, hlt⟩
        refine ⟨hmem, hty, ?_⟩
        have h5 : (get_total_income txs : ℚ) < 5 * (t.amount : ℚ) := by exact_mod_cast hlt
        linarith
    · simp only [List.not_mem_nil, false_iff, not_and]
      intro h0
      exact absurd h0 h
  refine ⟨key, ?_, ?_⟩
  · intro heq hmem
    have h := (key.mp hmem).2.2.2
    omega
  · intro hmem hty hpos heq
    exact key.mpr ⟨hpos, hmem, hty, by omega⟩

/-- C5 (witness): with a October 2025 income of 100 paisa, an expense of 21
paisa — one paisa above the 20-paisa 20% threshold — is reported as a large
transaction. -/
theorem large_transaction_alert_semantics_witness :
    (⟨"2025-10-02", "expense", "Food", "snack", 21⟩ : Transaction) ∈
      largeTransactionAlerts
        [⟨"2025-10-01", "income", "Salary", "pay", 100⟩,
         ⟨"2025-10-02", "expense", "Food", "snack", 21⟩] :=
  (large_transaction_alert_semantics
      [⟨"2025-10-01", "income", "Salary", "pay", 100⟩,
       ⟨"2025-10-02", "expense", "Food", "snack", 21⟩]
      ⟨"2025-10-02", "expense", "Food", "snack", 21⟩).2.2
    (by decide) (by decide) (by decide) (by decide)

/-- C6: a budget whose amount is 0 is always reported at 0% utilization
whatever the spend, is classified OK (never OVER or WARNING) by
`view_budgets`, and never yields an approaching-limit or exceeded alert in
`get_spending_alerts`; no division is performed on the zero amount. -/
theorem zero_budget_utilization :
    ∀ spent : ℤ,
      utilization 0 spent = 0 ∧
      viewBudgetStatus 0 spent = .OK ∧
      budgetAlert 0 spent = none := by
  intro spent
  have hu : utilization 0 spent = 0 := by norm_num [utilization]
  refine ⟨hu, ?_, ?_⟩
  · rw [viewBudgetStatus, hu]
    norm_num
  · rw [budgetAlert, hu]
    norm_num

/-- Adding an amount to one category's entry raises the total of all entries
by exactly that amount. -/
lemma addToCategory_snd_sum :
    ∀ (acc : List (String × ℤ)) (c : String) (a : ℤ),
      ((addToCategory acc c a).map Prod.snd).sum = (acc.map Prod.snd).sum + a := by
  intro acc c a
  induction acc with
  | nil => simp [addToCategory]
  | cons hd rest ih =>
      obtain ⟨c', v⟩ := hd
      rw [addToCategory]
      split_ifs with h
      · simp
        ring
      · simp [ih]
        ring

/-- C7: summing the per-category values of the expense grouping over all
categories recovers the total expense sum. -/
theorem category_sums_add_to_total :
    ∀ transactions : List Transaction,
      ((get_monthly_spending_by_category transactions).map Prod.snd).sum =
        get_total_spending transactions := by
  intro transactions
  suffices h : ∀ (l : List Transaction) (acc : List (String × ℤ)),
      ((l.foldl
          (fun acc t => if t.type = "expense" then addToCategory acc t.category t.amount else acc)
          acc).map Prod.snd).sum
        = (acc.map Prod.snd).sum + get_total_spending l by
    simpa [get_monthly_spending_by_category] using h transactions []
  intro l
  induction l with
  | nil => intro acc; simp [get_total_spending]
  | cons t rest ih =>
      intro acc
      rw [List.foldl_cons]
      by_cases ht : t.type = "expense"
      · rw [if_pos ht, ih, addToCategory_snd_sum]
        rw [get_total_spending, get_total_spending, List.filter_cons, if_pos (by simpa using ht)]
        simp
        ring
      · rw [if_neg ht, ih]
        rw [get_total_spending, get_total_spending, List.filter_cons, if_neg (by simpa using ht)]

/-- C8: when the previous-period total is zero the month-over-month
comparison reports new activity for a positive current total and no
activity otherwise (never dividing); when the previous total is positive,
the percent change it reports is exactly
`(current - previous) / previous * 100`. -/
theorem spending_comparison_semantics :
    (∀ current : ℤ, 0 < current → compareSpending current 0 = .newActivity) ∧
    (∀ current : ℤ, current ≤ 0 → compareSpending current 0 = .noActivity) ∧
    (∀ current previous : ℤ, 0 < previous →
      reportedChange (compareSpending current previous) =
        some (((current : ℚ) - (previous : ℚ)) / (previous : ℚ) * 100)) := by
  refine ⟨?_, ?_, ?_⟩
  · intro current h
    rw [compareSpending, if_neg (by norm_num), if_pos h]
  · intro current h
    rw [compareSpending, if_neg (by norm_num), if_neg (not_lt.mpr h)]
  · intro current previous hpos
    simp only [compareSpending]
    rw [if_pos hpos]
    set change : ℚ := ((current : ℚ) - (previous : ℚ)) / (previous : ℚ) * 100 with hc
    split_ifs with h1 h2
    · rfl
    · rw [reportedChange, abs_of_neg h2, neg_neg]
    · rw [reportedChange]
      have : change = 0 := le_antisymm (not_lt.mp h1) (not_lt.mp h2)
      rw [this]

/-- C8 (witness): the zero-baseline branches and the exact percent change at
a rise from 1000 to 1200. -/
theorem spending_comparison_semantics_witness :
    compareSpending 500 0 = .newActivity ∧
    compareSpending 0 0 = .noActivity ∧
    reportedChange (compareSpending 1200 1000) = some 20 := by
  refine ⟨spending_comparison_semantics.1 500 (by norm_num),
    spending_comparison_semantics.2.1 0 le_rfl, ?_⟩
  rw [spending_comparison_semantics.2.2 1200 1000 (by norm_num)]
  norm_num

/-- C9: when every date in the input parses, `filter_transactions_by_month`
returns exactly the transactions whose date has the requested calendar year
and month; and whenever the input contains a transaction whose ASCII date
string is unparseable (`strptime` raises `ValueError` on it), the function
deterministically raises (returns `Except.error`) instead of silently
skipping that transaction.  The ASCII hypothesis scopes the error direction
to the model's alphabet, see `parseDate`. -/
theorem filter_by_month_semantics :
    (∀ (txs : List Transaction) (year month : ℕ),
      (∀ t ∈ txs, (parseDate t.date).isSome) →
      filter_transactions_by_month txs year month =
        .ok (txs.filter (fun t =>
          match parseDate t.date with
          | some (y, m, _) => y == year && m == month
          | none => false))) ∧
    (∀ (txs : List Transaction) (year month : ℕ) (t : Transaction),
      t ∈ txs → (∀ c ∈ t.date.data, c.toNat < 128) → parseDate t.date = none →
      ∃ e, filter_transactions_by_month txs year month = .error e) := by
  constructor
  · intro txs year month
    induction txs with
    | nil => intro _; rfl
    | cons hd rest ih =>
        intro h
        obtain ⟨⟨y, m, d⟩, hp⟩ :=
          Option.isSome_iff_exists.mp (h hd (List.mem_cons_self hd rest))
        have hrest := ih (fun t' ht' => h t' (List.mem_cons_of_mem hd ht'))
        simp only [filter_transactions_by_month]
        rw [hp, hrest]
        by_cases hy : y = year ∧ m = month
        · simp [List.filter_cons, hp, hy.1, hy.2]
        · simp [List.filter_cons, hp, Bool.and_eq_true, beq_iff_eq, hy]
  · intro txs year month t
    induction txs with
    | nil => intro hmem _ _; exact absurd hmem (List.not_mem_nil t)
    | cons hd rest ih =>
        intro hmem hascii hnone
        rcases List.mem_cons.mp hmem with heq | hmem'
        · subst heq
          refine ⟨t.date, ?_⟩
          simp only [filter_transactions_by_month]
          rw [hnone]
        · cases hp : parseDate hd.date with
          | none =>
              refine ⟨hd.date, ?_⟩
              simp only [filter_transactions_by_month]
              rw [hp]
          | some ymd =>
              obtain ⟨y, m, d⟩ := ymd
              obtain ⟨e, he⟩ := ih hmem' hascii hnone
              refine ⟨e, ?_⟩
              simp only [filter_transactions_by_month]
              rw [hp, he]

/-- C9 (witness): a two-element ledger with all dates parseable filters to
its single February 2024 transaction, and a ledger containing an
unparseable date produces an error. -/
theorem filter_by_month_semantics_witness :
    filter_transactions_by_month
        [⟨"2024-02-29", "expense", "Food", "grocery", 500⟩,
         ⟨"2024-03-01", "income", "Salary", "pay", 900⟩] 2024 2 =
      .ok [⟨"2024-02-29", "expense", "Food", "grocery", 500⟩] ∧
    (∃ e, filter_transactions_by_month
        [⟨"2024-13-77", "expense", "Food", "grocery", 500⟩] 2024 2 = .error e) := by
  constructor
  · rw [filter_by_month_semantics.1
      [⟨"2024-02-29", "expense", "Food", "grocery", 500⟩,
       ⟨"2024-03-01", "income", "Salary", "pay", 900⟩] 2024 2 (by decide)]
    congr 1
  · exact filter_by_month_semantics.2
      [⟨"2024-13-77", "expense", "Food", "grocery", 500⟩] 2024 2
      ⟨"2024-13-77", "expense", "Food", "grocery", 500⟩ (by decide) (by decide) (by decide)
